import Mathlib

/-!
Shallow embedding of the MindEase chatbot backend (src/backend/app.py).

The backend is a small Flask application: a sentiment-based mood analyzer
(TextBlob polarity rescaled to a 0..100 mood score), an SQLite chat log
(append-only rows id/role/message/mood/timestamp with AUTOINCREMENT ids),
a Gemini response generator with a fixed prompt template and local error
recovery, and three handlers (POST /chat, GET /moods, plus startup init).

External capabilities (the TextBlob sentiment routine, the Gemini remote
call, the wall clock) are passed in as parameters; Python floats are
embedded as rationals.
-/

namespace MindEase

/-! ### Mood analysis (app.py, analyze_mood, lines 50-54) -/

/-- Python `int()` applied to a nonnegative-or-negative rational:
truncation toward zero. -/
def pyInt (x : ℚ) : ℤ :=
  if 0 ≤ x then Int.floor x else Int.ceil x

/-- Round a rational to the nearest integer, ties to even
(the rounding used by Python `round`). -/
def roundHalfEven (q : ℚ) : ℤ :=
  let f := Int.floor q
  let r := q - (f : ℚ)
  if r < 1 / 2 then f
  else if 1 / 2 < r then f + 1
  else if f % 2 = 0 then f else f + 1

/-- Python `round(x, 3)`: round to 3 decimal places. -/
def round3 (q : ℚ) : ℚ :=
  ((roundHalfEven (q * 1000) : ℚ)) / 1000

/-- `mood_score = int((polarity + 1) * 50)` (app.py line 53). -/
def mood_score (polarity : ℚ) : ℤ :=
  pyInt ((polarity + 1) * 50)

/-- `analyze_mood` (app.py lines 50-54): computes the rounded TextBlob
sentiment polarity and the rescaled mood score.  The TextBlob sentiment
routine is an external capability passed as `sentiment`. -/
def analyze_mood (sentiment : String → ℚ) (text : String) : ℚ × ℤ :=
  let polarity := round3 (sentiment text)
  (polarity, mood_score polarity)

/-! ### Storage adapter (app.py, init_db / save_message / the moods query) -/

/-- One row of the `chats` table (columns id, role, message, mood,
timestamp; app.py lines 27-35).  `mood` is nullable (save_message has
default `mood=None`). -/
structure ChatEntry where
  id : Nat
  role : String
  message : String
  mood : Option ℤ
  timestamp : String
  deriving DecidableEq

/-- The SQLite database file: whether the `chats` table exists, the
AUTOINCREMENT counter for the next `id`, and the rows in insertion
order. -/
structure DB where
  tableExists : Bool
  nextId : Nat
  rows : List ChatEntry
  deriving DecidableEq

/-- A fresh `mindease.db` file: no table, ids start at 1. -/
def DB.empty : DB :=
  { tableExists := false, nextId := 1, rows := [] }

/-- `init_db` (app.py lines 24-37): CREATE TABLE IF NOT EXISTS - makes
the table exist, touches nothing else, idempotent. -/
def init_db (db : DB) : DB :=
  { db with tableExists := true }

/-- `save_message` (app.py lines 39-47): INSERT one row; SQLite assigns
the next AUTOINCREMENT id.  `ts` is `datetime.utcnow().isoformat()`,
passed in as a clock value. -/
def save_message (db : DB) (role message : String) (mood : Option ℤ)
    (ts : String) : DB :=
  { db with
    nextId := db.nextId + 1
    rows := db.rows ++ [⟨db.nextId, role, message, mood, ts⟩] }

/-- Invariant of every reachable database: all stored ids are below the
AUTOINCREMENT counter. -/
def DB.wf (db : DB) : Prop :=
  ∀ e ∈ db.rows, e.id < db.nextId

/-- Insert an entry into a list kept in descending-id order. -/
def insertDesc (e : ChatEntry) : List ChatEntry → List ChatEntry
  | [] => [e]
  | x :: xs => if x.id ≤ e.id then e :: x :: xs else x :: insertDesc e xs

/-- Sort rows by id descending: the semantics of
`SELECT ... ORDER BY id DESC` (app.py line 105). -/
def sortByIdDesc : List ChatEntry → List ChatEntry
  | [] => []
  | x :: xs => insertDesc x (sortByIdDesc xs)

/-- `SELECT id, role, message, mood, timestamp FROM chats ORDER BY id
DESC LIMIT limit` (app.py line 105, with the literal limit 50 supplied
by the caller). -/
def recent (db : DB) (limit : Nat) : List ChatEntry :=
  (sortByIdDesc db.rows).take limit

/-! ### Gemini response generator (app.py, generate_response_gemini) -/

/-- Python truthiness of `GEMINI_KEY`: `os.getenv` returns None when the
variable is unset, and the empty string is falsy too. -/
def keyPresent : Option String → Bool
  | none => false
  | some k => k != ""

/-- Fixed reply when the API key is missing (app.py line 60). -/
def missing_key_reply : String := "❌ Server missing Gemini API key."

/-- Fixed fallback reply on any remote failure (app.py line 76). -/
def fallback_reply : String := "❌ Unable to generate response. Please try again."

/-- The f-string prompt of app.py lines 62-68. -/
def prompt_template (user_text : String) (ms : ℤ) : String :=
  "\nYou are a compassionate therapist bot.\nYou ONLY respond to mental health, emotional, or wellbeing issues.\nUser mood score: " ++ toString ms ++
  ".\nRespond empathetically to: \x27" ++ user_text ++
  "\x27.\nIf the user asks unrelated questions, gently guide them back to mental-health topics.\n"

/-- `generate_response_gemini` (app.py lines 57-76).  The remote Gemini
call is an external capability `remote : prompt -> completion text or
failure`.  Returns the reply string together with the list of log lines
printed (the `print` on line 75). -/
def generate_response_gemini (gemini_key : Option String)
    (remote : String → Except String String)
    (user_text : String) (ms : ℤ) : String × List String :=
  if keyPresent gemini_key = false then (missing_key_reply, [])
  else
    match remote (prompt_template user_text ms) with
    | Except.ok resp => (resp.trim, [])
    | Except.error e => (fallback_reply, ["Gemini Error: " ++ e])

/-! ### HTTP surface (app.py, routes) -/

/-- A JSON value, as produced by `jsonify`. -/
inductive Json where
  | str : String → Json
  | int : ℤ → Json
  | rat : ℚ → Json
  | bool : Bool → Json
  | null : Json
  | arr : List Json → Json
  | obj : List (String × Json) → Json

/-- An HTTP response: status code and JSON body.  Flask defaults the
status to 200. -/
structure HttpResponse where
  status : Nat
  body : Json

/-- The parsed JSON body of a POST /chat request.  `message = none`
models both an absent field and a null field (`data.get` yields the
default either way); the `voice` field is accepted but never read. -/
structure ChatRequest where
  message : Option String
  voice : Option Bool

/-- The `chat` handler (app.py lines 79-99).  Returns the HTTP response,
the database after the request, and the log lines printed.  `ts1` and
`ts2` are the two `utcnow()` reads inside the two `save_message`
calls. -/
def chat (gemini_key : Option String) (remote : String → Except String String)
    (sentiment : String → ℚ) (ts1 ts2 : String)
    (db : DB) (req : ChatRequest) : HttpResponse × DB × List String :=
  let user_message := req.message.getD ""
  if user_message = "" then
    (⟨400, Json.obj [("error", Json.str "no message provided")]⟩, db, [])
  else
    let pm := analyze_mood sentiment user_message
    let db1 := save_message db "user" user_message (some pm.2) ts1
    let gr := generate_response_gemini gemini_key remote user_message pm.2
    let db2 := save_message db1 "bot" gr.1 (some pm.2) ts2
    (⟨200, Json.obj [("reply", Json.str gr.1), ("mood", Json.int pm.2),
                     ("polarity", Json.rat pm.1)]⟩, db2, gr.2)

/-- Serialization of a nullable mood column. -/
def moodJson : Option ℤ → Json
  | none => Json.null
  | some m => Json.int m

/-- One item of the GET /moods response (app.py lines 109-112). -/
def entryJson (e : ChatEntry) : Json :=
  Json.obj [("id", Json.int (e.id : ℤ)), ("role", Json.str e.role),
            ("message", Json.str e.message), ("mood", moodJson e.mood),
            ("timestamp", Json.str e.timestamp)]

/-- The `moods` handler (app.py lines 101-113). -/
def moods (db : DB) : HttpResponse :=
  ⟨200, Json.obj [("items", Json.arr ((recent db 50).map entryJson))]⟩

/-- HTTP methods used by the app. -/
inductive Method where
  | GET
  | POST
  deriving DecidableEq

/-- A registered Flask route. -/
structure Route where
  method : Method
  path : String
  deriving DecidableEq

/-- The routes registered on the Flask app: `@app.route` decorators at
app.py lines 79 and 101.  There is no other route in the file. -/
def appRoutes : List Route :=
  [⟨Method.POST, "/chat"⟩, ⟨Method.GET, "/moods"⟩]

/-- The `__main__` startup (app.py lines 116-119): `init_db()` runs
before the server starts serving the routes. -/
def mainStartupDb : DB :=
  init_db DB.empty

/-! ### Helper lemmas -/

theorem pyInt_eq_floor {x : ℚ} (hx : 0 ≤ x) : pyInt x = Int.floor x :=
  if_pos hx

theorem pyInt_mono {x y : ℚ} (h : x ≤ y) : pyInt x ≤ pyInt y := by
  unfold pyInt
  by_cases hx : 0 ≤ x
  · rw [if_pos hx, if_pos (hx.trans h)]
    exact Int.floor_mono h
  · by_cases hy : 0 ≤ y
    · rw [if_neg hx, if_pos hy]
      have h1 : Int.ceil x ≤ 0 :=
        Int.ceil_le.mpr (by exact_mod_cast le_of_not_le hx)
      have h2 : (0 : ℤ) ≤ Int.floor y := Int.floor_nonneg.mpr hy
      omega
    · rw [if_neg hx, if_neg hy]
      exact Int.ceil_mono h

theorem mood_score_eq_floor {p : ℚ} (h : -1 ≤ p) :
    mood_score p = Int.floor ((p + 1) * 50) := by
  unfold mood_score
  exact pyInt_eq_floor (by nlinarith)

theorem mood_score_zero : mood_score 0 = 50 := by
  unfold mood_score pyInt
  rw [if_pos (by norm_num)]
  norm_num

theorem round3_zero : round3 0 = 0 := by
  unfold round3 roundHalfEven
  norm_num

theorem mem_insertDesc {a e : ChatEntry} {l : List ChatEntry} :
    a ∈ insertDesc e l ↔ a = e ∨ a ∈ l := by
  induction l with
  | nil => simp [insertDesc]
  | cons x xs ih =>
    by_cases h : x.id ≤ e.id
    · simp only [insertDesc, if_pos h, List.mem_cons]
    · simp only [insertDesc, if_neg h, List.mem_cons, ih]
      tauto

theorem pairwise_insertDesc {e : ChatEntry} {l : List ChatEntry}
    (hl : List.Pairwise (fun a b : ChatEntry => b.id ≤ a.id) l) :
    List.Pairwise (fun a b : ChatEntry => b.id ≤ a.id) (insertDesc e l) := by
  induction l with
  | nil => simp [insertDesc]
  | cons x xs ih =>
    rcases List.pairwise_cons.mp hl with ⟨hx, hxs⟩
    by_cases h : x.id ≤ e.id
    · rw [insertDesc, if_pos h]
      refine List.pairwise_cons.mpr ⟨?_, hl⟩
      intro b hb
      rcases List.mem_cons.mp hb with rfl | hb
      · exact h
      · exact (hx b hb).trans h
    · rw [insertDesc, if_neg h]
      refine List.pairwise_cons.mpr ⟨?_, ih hxs⟩
      intro b hb
      rcases mem_insertDesc.mp hb with rfl | hb
      · exact le_of_not_le h
      · exact hx b hb

theorem pairwise_sortByIdDesc (l : List ChatEntry) :
    List.Pairwise (fun a b : ChatEntry => b.id ≤ a.id) (sortByIdDesc l) := by
  induction l with
  | nil => simp [sortByIdDesc]
  | cons x xs ih => exact pairwise_insertDesc ih

theorem sortByIdDesc_append_max {e : ChatEntry} {l : List ChatEntry}
    (h : ∀ x ∈ l, x.id < e.id) :
    sortByIdDesc (l ++ [e]) = e :: sortByIdDesc l := by
  induction l with
  | nil => rfl
  | cons x xs ih =>
    have hx : x.id < e.id := h x (List.mem_cons_self x xs)
    have htail : sortByIdDesc (xs ++ [e]) = e :: sortByIdDesc xs :=
      ih fun y hy => h y (List.mem_cons_of_mem x hy)
    show insertDesc x (sortByIdDesc (xs ++ [e])) = e :: insertDesc x (sortByIdDesc xs)
    rw [htail, insertDesc, if_neg (by omega)]

/-! ### Claim theorems -/

/-- C1: For every input text whose sentiment polarity p lies in [-1, 1],
the mood score computed by analyze_mood equals floor((p + 1) * 50),
always lies in [0, 100], is monotonically non-decreasing in p, and
equals 50 when p = 0. -/
theorem c1_mood_score_formula (sentiment : String → ℚ) (text : String)
    (h1 : -1 ≤ (analyze_mood sentiment text).1)
    (h2 : (analyze_mood sentiment text).1 ≤ 1) :
    (analyze_mood sentiment text).2
        = Int.floor (((analyze_mood sentiment text).1 + 1) * 50)
    ∧ 0 ≤ (analyze_mood sentiment text).2
    ∧ (analyze_mood sentiment text).2 ≤ 100
    ∧ (∀ p q : ℚ, p ≤ q → mood_score p ≤ mood_score q)
    ∧ mood_score 0 = 50 := by
  have hm : (analyze_mood sentiment text).2
      = mood_score (analyze_mood sentiment text).1 := rfl
  refine ⟨?_, ?_, ?_, ?_, mood_score_zero⟩
  · rw [hm]
    exact mood_score_eq_floor h1
  · rw [hm, mood_score_eq_floor h1]
    exact Int.floor_nonneg.mpr (by nlinarith)
  · rw [hm, mood_score_eq_floor h1]
    calc Int.floor (((analyze_mood sentiment text).1 + 1) * 50)
        ≤ Int.floor ((100 : ℚ)) := Int.floor_mono (by nlinarith)
      _ = 100 := by norm_num
  · intro p q hpq
    unfold mood_score
    exact pyInt_mono (by nlinarith)

/-- Witness for C1 at the concrete neutral sentiment function and the
text "hi": polarity 0, mood 50, inside the bounds. -/
theorem c1_mood_score_formula_witness :
    0 ≤ (analyze_mood (fun _ => 0) "hi").2
    ∧ (analyze_mood (fun _ => 0) "hi").2 ≤ 100 :=
  ⟨(c1_mood_score_formula (fun _ => 0) "hi"
      (by rw [show (analyze_mood (fun _ => (0:ℚ)) "hi").1 = round3 0 from rfl,
              round3_zero]; norm_num)
      (by rw [show (analyze_mood (fun _ => (0:ℚ)) "hi").1 = round3 0 from rfl,
              round3_zero]; norm_num)).2.1,
   (c1_mood_score_formula (fun _ => 0) "hi"
      (by rw [show (analyze_mood (fun _ => (0:ℚ)) "hi").1 = round3 0 from rfl,
              round3_zero]; norm_num)
      (by rw [show (analyze_mood (fun _ => (0:ℚ)) "hi").1 = round3 0 from rfl,
              round3_zero]; norm_num)).2.2.1⟩

/-- C8: The mood analyzer is deterministic for identical input text, and
for the empty string and whitespace-only input (where the TextBlob
sentiment routine yields polarity 0) it returns polarity 0.0 and mood
score 50, without failing. -/
theorem c8_analyze_deterministic_neutral (sentiment : String → ℚ)
    (hneutral : ∀ t : String,
      t.data.all Char.isWhitespace = true → sentiment t = 0) :
    (∀ t1 t2 : String, t1 = t2 →
        analyze_mood sentiment t1 = analyze_mood sentiment t2)
    ∧ (∀ t : String, t.data.all Char.isWhitespace = true →
        analyze_mood sentiment t = (0, 50)) := by
  constructor
  · intro t1 t2 h
    rw [h]
  · intro t ht
    show (round3 (sentiment t), mood_score (round3 (sentiment t))) = (0, 50)
    rw [hneutral t ht, round3_zero, mood_score_zero]

/-- Witness for C8: the three-space string is whitespace-only and
analyzes to polarity 0 and mood 50. -/
theorem c8_analyze_deterministic_neutral_witness :
    analyze_mood (fun _ => 0) "   " = (0, 50) :=
  (c8_analyze_deterministic_neutral (fun _ => 0) (fun _ _ => rfl)).2 "   "
    (by decide)

/-- C2: For every POST /chat request whose body lacks a message field or
whose message is empty, the handler returns status 400 with the
no-message error body, and the stored chat log is unchanged (and nothing
is logged). -/
theorem c2_missing_message_400 (gemini_key : Option String)
    (remote : String → Except String String) (sentiment : String → ℚ)
    (ts1 ts2 : String) (db : DB) (req : ChatRequest)
    (h : req.message = none ∨ req.message = some "") :
    chat gemini_key remote sentiment ts1 ts2 db req
      = (⟨400, Json.obj [("error", Json.str "no message provided")]⟩, db, []) := by
  rcases h with h | h <;> simp [chat, h]

/-- Witness for C2: the empty request against an empty store with the
remote down. -/
theorem c2_missing_message_400_witness :
    chat none (fun _ => Except.error "down") (fun _ => 0) "t1" "t2"
        DB.empty ⟨none, none⟩
      = (⟨400, Json.obj [("error", Json.str "no message provided")]⟩,
         DB.empty, []) :=
  c2_missing_message_400 none (fun _ => Except.error "down") (fun _ => 0)
    "t1" "t2" DB.empty ⟨none, none⟩ (Or.inl rfl)

/-- C3: For every successful POST /chat request (non-empty message),
exactly two rows are appended to storage, a user row immediately
followed by a bot row, and both rows carry the same mood value, the bot
row mood being copied from the user turn score. -/
theorem c3_two_rows_same_mood (gemini_key : Option String)
    (remote : String → Except String String) (sentiment : String → ℚ)
    (ts1 ts2 : String) (db : DB) (req : ChatRequest) (m : String)
    (hm : req.message = some m) (hne : m ≠ "") :
    (chat gemini_key remote sentiment ts1 ts2 db req).2.1.rows
      = db.rows
        ++ [⟨db.nextId, "user", m, some (analyze_mood sentiment m).2, ts1⟩,
            ⟨db.nextId + 1, "bot",
             (generate_response_gemini gemini_key remote m
               (analyze_mood sentiment m).2).1,
             some (analyze_mood sentiment m).2, ts2⟩] := by
  simp [chat, hm, hne, save_message]

/-- Witness for C3 at a concrete request with the key absent. -/
theorem c3_two_rows_same_mood_witness :
    (chat none (fun _ => Except.error "down") (fun _ => 0) "t1" "t2"
        DB.empty ⟨some "hi", none⟩).2.1.rows
      = DB.empty.rows
        ++ [⟨DB.empty.nextId, "user", "hi",
             some (analyze_mood (fun _ => 0) "hi").2, "t1"⟩,
            ⟨DB.empty.nextId + 1, "bot",
             (generate_response_gemini none (fun _ => Except.error "down") "hi"
               (analyze_mood (fun _ => 0) "hi").2).1,
             some (analyze_mood (fun _ => 0) "hi").2, "t2"⟩] :=
  c3_two_rows_same_mood none (fun _ => Except.error "down") (fun _ => 0)
    "t1" "t2" DB.empty ⟨some "hi", none⟩ "hi" rfl (by decide)

/-- C4: For every state of the store, the recent-history read behind
GET /moods returns at most 50 items, ordered by id descending, the
response serializes exactly those items, and an empty store yields the
empty items list. -/
theorem c4_moods_spec (db : DB) :
    (recent db 50).length ≤ 50
    ∧ List.Pairwise (fun a b : ChatEntry => b.id ≤ a.id) (recent db 50)
    ∧ moods db
        = ⟨200, Json.obj [("items", Json.arr ((recent db 50).map entryJson))]⟩
    ∧ (db.rows = [] →
        moods db = ⟨200, Json.obj [("items", Json.arr [])]⟩) := by
  refine ⟨List.length_take_le 50 _, ?_, rfl, ?_⟩
  · exact (pairwise_sortByIdDesc db.rows).sublist
      (List.take_sublist 50 (sortByIdDesc db.rows))
  · intro h
    simp [moods, recent, h, sortByIdDesc]

/-- Witness for C4 on the empty store. -/
theorem c4_moods_spec_witness :
    moods DB.empty = ⟨200, Json.obj [("items", Json.arr [])]⟩ :=
  (c4_moods_spec DB.empty).2.2.2 rfl

/-- C5: With the credential present, every failure of the remote
generation call is caught, logged, and replaced by the fixed generic
fallback string; a success returns the completion text trimmed of
surrounding whitespace; and a failing remote never surfaces as an HTTP
error status (POST /chat with a non-empty message stays 200). -/
theorem c5_remote_failure_recovered (gemini_key : Option String)
    (hk : keyPresent gemini_key = true)
    (remote : String → Except String String) (u : String) (ms : ℤ) :
    (∀ e : String, remote (prompt_template u ms) = Except.error e →
        generate_response_gemini gemini_key remote u ms
          = (fallback_reply, ["Gemini Error: " ++ e]))
    ∧ (∀ txt : String, remote (prompt_template u ms) = Except.ok txt →
        generate_response_gemini gemini_key remote u ms = (txt.trim, []))
    ∧ (∀ (sentiment : String → ℚ) (ts1 ts2 : String) (db : DB) (m : String),
        m ≠ "" →
        (chat gemini_key remote sentiment ts1 ts2 db ⟨some m, none⟩).1.status
          = 200) := by
  refine ⟨?_, ?_, ?_⟩
  · intro e he
    simp [generate_response_gemini, hk, he]
  · intro txt htxt
    simp [generate_response_gemini, hk, htxt]
  · intro sentiment ts1 ts2 db m hm
    simp [chat, hm]

/-- Witness for C5: a concrete failing remote with the key set. -/
theorem c5_remote_failure_recovered_witness :
    generate_response_gemini (some "k") (fun _ => Except.error "quota") "hi" 50
      = (fallback_reply, ["Gemini Error: " ++ "quota"]) :=
  (c5_remote_failure_recovered (some "k") (by decide)
    (fun _ => Except.error "quota") "hi" 50).1 "quota" rfl

/-- C6: When the API credential is absent, the generator returns the
fixed missing-key string instead of raising, and POST /chat still
returns 200 with reply equal to that string while mood and polarity
come from the real sentiment computation on the user message. -/
theorem c6_missing_key_degrades (gemini_key : Option String)
    (hk : keyPresent gemini_key = false)
    (remote : String → Except String String) (sentiment : String → ℚ)
    (ts1 ts2 : String) (db : DB) (m : String) (hne : m ≠ "") :
    generate_response_gemini gemini_key remote m (analyze_mood sentiment m).2
      = (missing_key_reply, [])
    ∧ (chat gemini_key remote sentiment ts1 ts2 db ⟨some m, none⟩).1
      = ⟨200, Json.obj [("reply", Json.str missing_key_reply),
                        ("mood", Json.int (analyze_mood sentiment m).2),
                        ("polarity", Json.rat (analyze_mood sentiment m).1)]⟩ := by
  constructor
  · simp [generate_response_gemini, hk]
  · simp [chat, hne, generate_response_gemini, hk]

/-- Witness for C6 at a concrete request with no key configured. -/
theorem c6_missing_key_degrades_witness :
    (chat none (fun _ => Except.error "down") (fun _ => 0) "t1" "t2"
        DB.empty ⟨some "hi", none⟩).1
      = ⟨200, Json.obj [("reply", Json.str missing_key_reply),
                        ("mood", Json.int (analyze_mood (fun _ => 0) "hi").2),
                        ("polarity", Json.rat (analyze_mood (fun _ => 0) "hi").1)]⟩ :=
  (c6_missing_key_degrades none rfl (fun _ => Except.error "down") (fun _ => 0)
    "t1" "t2" DB.empty "hi" (by decide)).2

/-- C7: On every well-formed store, append then recent(limit 1) returns
exactly the just-inserted entry; its fresh id is strictly greater than
every id previously present; and well-formedness is preserved. -/
theorem c7_append_then_recent_one (db : DB) (hwf : DB.wf db)
    (role msg : String) (mood : Option ℤ) (ts : String) :
    recent (save_message db role msg mood ts) 1
        = [⟨db.nextId, role, msg, mood, ts⟩]
    ∧ (∀ e ∈ db.rows, e.id < db.nextId)
    ∧ DB.wf (save_message db role msg mood ts) := by
  refine ⟨?_, hwf, ?_⟩
  · show (sortByIdDesc (db.rows ++ [⟨db.nextId, role, msg, mood, ts⟩])).take 1
        = [⟨db.nextId, role, msg, mood, ts⟩]
    rw [sortByIdDesc_append_max fun x hx => hwf x hx]
    rfl
  · intro e he
    rcases List.mem_append.mp he with he | he
    · exact Nat.lt_succ_of_lt (hwf e he)
    · rcases List.mem_singleton.mp he with rfl
      exact Nat.lt_succ_self _

/-- Witness for C7: one append on the empty store. -/
theorem c7_append_then_recent_one_witness :
    recent (save_message DB.empty "user" "hi" (some 50) "t") 1
      = [⟨DB.empty.nextId, "user", "hi", some 50, "t"⟩] :=
  (c7_append_then_recent_one DB.empty
    (fun e he => absurd he (List.not_mem_nil e)) "user" "hi"
    (some 50) "t").1

/-- C9 counterexample: the app registers no POST /init route at all, so
the lazy-init variant the claim requires does not exist in this code. -/
theorem c9_no_init_route :
    (⟨Method.POST, "/init"⟩ : Route) ∉ appRoutes := by
  decide

/-- C9 (amended): the program supports only the eager-init variant: the
startup block runs init_db before serving, and the registered routes are
exactly POST /chat and GET /moods, with no /init endpoint and no
configuration option selecting a lazy-init variant. -/
theorem c9_eager_init_only :
    mainStartupDb.tableExists = true
    ∧ appRoutes = [⟨Method.POST, "/chat"⟩, ⟨Method.GET, "/moods"⟩]
    ∧ (∀ r ∈ appRoutes, r.path ≠ "/init") := by
  refine ⟨rfl, rfl, ?_⟩
  decide

/-- C10: For every POST /chat request with a non-empty message, whatever
string the response generator returns — including the fixed missing
credential string and the generic fallback string — is persisted as the
bot turn message with the user turn mood, and that bot row shows up in
the recent history served by GET /moods. -/
theorem c10_reply_persisted (gemini_key : Option String)
    (remote : String → Except String String) (sentiment : String → ℚ)
    (ts1 ts2 : String) (db : DB) (req : ChatRequest) (m : String)
    (hm : req.message = some m) (hne : m ≠ "") :
    ((chat gemini_key remote sentiment ts1 ts2 db req).2.1.rows
        = db.rows
          ++ [⟨db.nextId, "user", m, some (analyze_mood sentiment m).2, ts1⟩,
              ⟨db.nextId + 1, "bot",
               (generate_response_gemini gemini_key remote m
                 (analyze_mood sentiment m).2).1,
               some (analyze_mood sentiment m).2, ts2⟩])
    ∧ (keyPresent gemini_key = false →
        (generate_response_gemini gemini_key remote m
          (analyze_mood sentiment m).2).1 = missing_key_reply)
    ∧ (keyPresent gemini_key = true →
        ∀ e : String,
          remote (prompt_template m (analyze_mood sentiment m).2)
            = Except.error e →
          (generate_response_gemini gemini_key remote m
            (analyze_mood sentiment m).2).1 = fallback_reply)
    ∧ (DB.wf db →
        (⟨db.nextId + 1, "bot",
          (generate_response_gemini gemini_key remote m
            (analyze_mood sentiment m).2).1,
          some (analyze_mood sentiment m).2, ts2⟩ : ChatEntry)
          ∈ recent (chat gemini_key remote sentiment ts1 ts2 db req).2.1 50) := by
  have hrows : (chat gemini_key remote sentiment ts1 ts2 db req).2.1.rows
      = db.rows
        ++ [⟨db.nextId, "user", m, some (analyze_mood sentiment m).2, ts1⟩,
            ⟨db.nextId + 1, "bot",
             (generate_response_gemini gemini_key remote m
               (analyze_mood sentiment m).2).1,
             some (analyze_mood sentiment m).2, ts2⟩] := by
    simp [chat, hm, hne, save_message]
  refine ⟨hrows, ?_, ?_, ?_⟩
  · intro hk
    simp [generate_response_gemini, hk]
  · intro hk e he
    simp [generate_response_gemini, hk, he]
  · intro hwf
    unfold recent
    rw [hrows]
    rw [show db.rows
          ++ [⟨db.nextId, "user", m, some (analyze_mood sentiment m).2, ts1⟩,
              ⟨db.nextId + 1, "bot",
               (generate_response_gemini gemini_key remote m
                 (analyze_mood sentiment m).2).1,
               some (analyze_mood sentiment m).2, ts2⟩]
        = (db.rows
            ++ [⟨db.nextId, "user", m, some (analyze_mood sentiment m).2, ts1⟩])
          ++ [⟨db.nextId + 1, "bot",
               (generate_response_gemini gemini_key remote m
                 (analyze_mood sentiment m).2).1,
               some (analyze_mood sentiment m).2, ts2⟩]
        from by simp]
    rw [sortByIdDesc_append_max ?hmax]
    case hmax =>
      intro x hx
      rcases List.mem_append.mp hx with hx | hx
      · exact Nat.lt_succ_of_lt (hwf x hx)
      · rcases List.mem_singleton.mp hx with rfl
        exact Nat.lt_succ_self _
    rw [show (50 : Nat) = 49 + 1 from rfl, List.take_succ_cons]
    exact List.mem_cons_self _ _

/-- Witness for C10: with no key configured, the persisted bot reply is
the fixed missing-key string. -/
theorem c10_reply_persisted_witness :
    (generate_response_gemini none (fun _ => Except.error "down") "hi"
      (analyze_mood (fun _ => 0) "hi").2).1 = missing_key_reply :=
  (c10_reply_persisted none (fun _ => Except.error "down") (fun _ => 0)
    "t1" "t2" DB.empty ⟨some "hi", none⟩ "hi" rfl (by decide)).2.1 rfl

end MindEase
